import Mathlib

/-!
# ThalaMitra donor-matching MVP: verified model of the scoring core

This file gives a shallow embedding, in Lean 4, of the computational core of
`app1.py` (the ThalaMitra MVP): the min-max feature normalizer, the
random-forest probability/threshold inference step, the eligibility
calculator, the donor-roster CSV parser with its synthetic-data fallback, the
leaderboard sort, and the training-evaluation metrics.  Numeric values are
modelled as rationals (`ℚ`), calendar dates as integers counting days, and
pandas tables as a list of column names together with rows of cells.

Python floats are modelled by `ℚ`; all the arithmetic verified here
(min/max, affine rescaling by small integers, comparisons against 0.5)
is exact in IEEE double precision for the integer-valued inputs the
endpoints accept, so no rounding gap separates the model from the code.
-/

namespace ThalaMitra

/-! ## Feature vectors (Recency, Frequency, Monetary, Time) -/

/-- One row of the four model features, as selected in `train_model`
(`df[['Recency', 'Frequency', 'Monetary', 'Time']]`). -/
structure FeatureVec where
  recency : ℚ
  frequency : ℚ
  monetary : ℚ
  time : ℚ
deriving DecidableEq, Repr

/-- The four feature columns in their order in the source. -/
def FeatureVec.get (x : FeatureVec) : Fin 4 → ℚ
  | 0 => x.recency
  | 1 => x.frequency
  | 2 => x.monetary
  | 3 => x.time

/-- The inference endpoint (Tab 1) accepts non-negative integer features with
the widget bounds `Recency ∈ [0,50]`, `Frequency ∈ [0,50]`,
`Monetary ∈ [0,20000]`, `Time ∈ [0,200]`. -/
def acceptedInput (x : FeatureVec) : Prop :=
  (∃ n : ℕ, x.recency = n) ∧ (∃ n : ℕ, x.frequency = n) ∧
    (∃ n : ℕ, x.monetary = n) ∧ (∃ n : ℕ, x.time = n) ∧
    0 ≤ x.recency ∧ x.recency ≤ 50 ∧
    0 ≤ x.frequency ∧ x.frequency ≤ 50 ∧
    0 ≤ x.monetary ∧ x.monetary ≤ 20000 ∧
    0 ≤ x.time ∧ x.time ≤ 200

/-! ## MinMaxScaler

`train_model` builds `MinMaxScaler()` and calls `fit_transform` on the whole
feature matrix (lines 57–58); Tab 1 later calls `scaler.transform` on a single
new row (line 211).  With the default `feature_range=(0,1)` the fitted
statistics are the per-column minimum and maximum, and `transform` maps a
value `v` of a column to `(v - min) / (max - min)` — except that the stored
`scale_` is `1 / _handle_zeros_in_scale(max - min)`, which replaces a zero
range by `1`, so a degenerate column (max = min) divides by `1`, not by `0`.
`transform` performs no clipping (scikit-learn default `clip=False`). -/

/-- Per-column fitted statistics of `MinMaxScaler`: `data_min_` and
`data_max_`. -/
structure ColStats where
  dmin : ℚ
  dmax : ℚ
deriving DecidableEq, Repr

/-- Fitting one column: minimum and maximum over a non-empty list of values
(head given separately so the column is non-empty by construction). -/
def fitColumn (v : ℚ) (vs : List ℚ) : ColStats :=
  { dmin := vs.foldl min v, dmax := vs.foldl max v }

/-- scikit-learn `_handle_zeros_in_scale`: a zero range is replaced by `1`
before it is used as a divisor, so `transform` never divides by zero. -/
def handle_zeros_in_scale (r : ℚ) : ℚ :=
  if r = 0 then 1 else r

/-- `MinMaxScaler.transform` on one value of one column:
`(v - dmin) * scale_` with `scale_ = 1 / _handle_zeros_in_scale(dmax - dmin)`,
that is `(v - min) / (max - min)` for a non-degenerate column and
`(v - min) / 1` for a degenerate one.  No clipping is applied. -/
def transformValue (s : ColStats) (v : ℚ) : ℚ :=
  (v - s.dmin) / handle_zeros_in_scale (s.dmax - s.dmin)

/-- Fitted statistics for the four feature columns. -/
structure ScalerStats where
  recency : ColStats
  frequency : ColStats
  monetary : ColStats
  time : ColStats
deriving DecidableEq, Repr

/-- `MinMaxScaler.fit` on a non-empty feature matrix `x :: xs`: per-column
min/max. -/
def fitScaler (x : FeatureVec) (xs : List FeatureVec) : ScalerStats :=
  { recency := fitColumn x.recency (xs.map FeatureVec.recency)
    frequency := fitColumn x.frequency (xs.map FeatureVec.frequency)
    monetary := fitColumn x.monetary (xs.map FeatureVec.monetary)
    time := fitColumn x.time (xs.map FeatureVec.time) }

/-- `MinMaxScaler.transform` on one feature row (line 211,
`X_in_scaled = scaler.transform(X_in)`). -/
def scalerTransform (s : ScalerStats) (x : FeatureVec) : FeatureVec :=
  { recency := transformValue s.recency x.recency
    frequency := transformValue s.frequency x.frequency
    monetary := transformValue s.monetary x.monetary
    time := transformValue s.time x.time }

/-! ## Eligibility calculator (`compute_eligibility`, lines 84–89)

Python `datetime.date` values are modelled as integers counting days, so that
`date + timedelta(days=c)` is `+ c` and `(d2 - d1).days` is `d2 - d1`.  The
source reads `date.today()` inside the function; here `today` is an explicit
argument. -/

/-- `compute_eligibility(last_donation, cooldown_days)` returns
`(eligible, next_eligible, days_left)`. -/
def compute_eligibility (lastDonation cooldownDays today : ℤ) : Bool × ℤ × ℤ :=
  let nextEligible := lastDonation + cooldownDays
  let eligible : Bool := today ≥ nextEligible
  let daysLeft : ℤ := if eligible then 0 else nextEligible - today
  (eligible, nextEligible, daysLeft)

/-! ## RandomForest inference

`model.predict_proba(X)[0, 1]` on a fitted `RandomForestClassifier` is the
average, over the trees of the ensemble, of the positive-class frequency of
the leaf the input falls into.  A fitted tree is modelled as a binary decision
tree over the four features whose leaves carry the class counts of the
training points they received. -/

/-- A fitted decision tree: internal nodes test `feature ≤ threshold`
(left on success), leaves hold positive/negative class counts. -/
inductive DTree where
  | leaf (pos neg : ℕ) : DTree
  | node (feature : Fin 4) (threshold : ℚ) (left right : DTree) : DTree
deriving DecidableEq, Repr

/-- The positive-class probability a single tree assigns to an input: the
class fraction of the leaf reached. -/
def DTree.probaPos : DTree → FeatureVec → ℚ
  | .leaf pos neg, _ => (pos : ℚ) / ((pos : ℚ) + (neg : ℚ))
  | .node f t l r, x => if x.get f ≤ t then l.probaPos x else r.probaPos x

/-- `model.predict_proba(x)[0, 1]`: average of the per-tree positive-class
probabilities (line 214). -/
def predict_proba (trees : List DTree) (x : FeatureVec) : ℚ :=
  (trees.map (fun t => t.probaPos x)).sum / (trees.length : ℚ)

/-- Line 215: `pred = int(proba >= 0.5)`, as a boolean. -/
def pred (proba : ℚ) : Bool :=
  decide (proba ≥ 1 / 2)

/-! ## Tables (pandas DataFrames)

A DataFrame is modelled as an ordered list of column names plus rows of
cells; a cell is a string or an integer (dates are integer day counts). -/

/-- One cell of a table. -/
inductive Cell where
  | s (v : String)
  | i (v : ℤ)
deriving DecidableEq, Repr

/-- A pandas DataFrame: column names and rows of cells (row `r` holds the
value of column `cols[k]` at position `k`). -/
structure Table where
  cols : List String
  rows : List (List Cell)
deriving DecidableEq, Repr

/-- The cell of row `r` in the column named `c` of a table with columns
`cols` (defaulting to `0` for absent columns; the functions below only read
columns whose presence they have checked). -/
def cellAt (cols : List String) (r : List Cell) (c : String) : Cell :=
  r.getD (cols.indexOf c) (.i 0)

/-! ## Donor-roster CSV parsing (`parse_donors_csv`, lines 113–124) -/

/-- The required roster columns (line 118). -/
def requiredCols : List String :=
  ["name", "gender", "blood_group", "last_donation_date", "total_donations"]

/-- `df["total_donations"] * 10` on one cell.  (On a string cell pandas
object-dtype would repeat the string; the verified claims only use integer
cells.) -/
def cellTimes10 : Cell → Cell
  | .i v => .i (v * 10)
  | .s v => .s v

/-- The message of line 121, `f"Missing columns in donors CSV: \x7bmissing\x7d"`,
with the missing set rendered in Python set notation. -/
def missingColMsg (missing : List String) : String :=
  "Missing columns in donors CSV: \x7b" ++
    String.intercalate ", " (missing.map (fun c => "\x27" ++ c ++ "\x27")) ++ "\x7d"

/-- `parse_donors_csv` (lines 113–124).  Line 116
(`df["last_donation_date"].dt.date`) raises a `KeyError` before the
required-columns check whenever that column is absent; otherwise the check of
lines 118–121 raises `ValueError` on any other missing required column; then
a missing `contribution_score` column is filled with
`total_donations * 10` (lines 122–123). -/
def parse_donors_csv (t : Table) : Except String Table :=
  if "last_donation_date" ∉ t.cols then
    .error "KeyError: \x27last_donation_date\x27"
  else
    let missing := requiredCols.filter (fun c => c ∉ t.cols)
    if missing ≠ [] then
      .error (missingColMsg missing)
    else if "contribution_score" ∈ t.cols then
      .ok t
    else
      .ok { cols := t.cols ++ ["contribution_score"]
            rows := t.rows.map (fun r =>
              r ++ [cellTimes10 (cellAt t.cols r "total_donations")]) }

/-! ## Synthetic donor roster (`gen_sample_donors`, lines 91–111) -/

/-- Abstract seeded pseudo-random stream.  `np.random.seed(seed)` followed by
the draws of `gen_sample_donors` makes every generated value a deterministic
function of the seed and the draw position; the Mersenne-Twister stream
itself is modelled by a fixed deterministic mixing function. -/
def prand (seed j : ℕ) : ℕ :=
  (seed * 2654435761 + j * 40503 + 12345) % 2 ^ 16

/-- `f"Donor-\x7bi+1:03d\x7d"`: zero-padded three-digit rendering. -/
def pad3 (n : ℕ) : String :=
  if n < 10 then "00" ++ toString n
  else if n < 100 then "0" ++ toString n
  else toString n

/-- The gender choices of line 94 (the weights `p=[0.6, 0.4]` only bias the
abstracted stream). -/
def genderChoices : List String := ["Male", "Female"]

/-- The blood-group choices of lines 95–98. -/
def bloodGroupChoices : List String :=
  ["A+", "A-", "B+", "B-", "AB+", "AB-", "O+", "O-"]

/-- `gen_sample_donors(n=200, seed=42)` (lines 91–111): `n` synthetic donors,
every field a deterministic function of `seed` (and of `today`, an explicit
argument standing for `date.today()`).  `contribution_score` is
`total_units * 10 + (365 - last_days_ago)` (line 102). -/
def gen_sample_donors (today : ℤ) (n : ℕ := 200) (seed : ℕ := 42) : Table :=
  { cols := ["name", "gender", "blood_group", "last_donation_date",
             "total_donations", "contribution_score"]
    rows := (List.range n).map (fun j =>
      let gender := genderChoices.getD (prand seed j % 2) "Male"
      let bg := bloodGroupChoices.getD (prand seed (n + j) % 8) "O+"
      let lastDaysAgo : ℤ := (1 + prand seed (2 * n + j) % 364 : ℕ)
      let totalUnits : ℤ := (1 + prand seed (3 * n + j) % 14 : ℕ)
      let score := totalUnits * 10 + (365 - lastDaysAgo)
      [.s ("Donor-" ++ pad3 (j + 1)), .s gender, .s bg,
       .i (today - lastDaysAgo), .i totalUnits, .i score]) }

/-- The sidebar logic of lines 144–152: an uploaded roster is parsed with
`parse_donors_csv`; on any exception the error message is shown in the
sidebar and the app falls back to `gen_sample_donors()` with its default
arguments (`n = 200`, `seed = 42`); with no upload the same default synthetic
roster is used. -/
def donorsTableOfUpload (today : ℤ) (upload : Option Table) : Table :=
  match upload with
  | none => gen_sample_donors today
  | some t =>
    match parse_donors_csv t with
    | .ok df => df
    | .error _ => gen_sample_donors today

/-! ## Training-data loading (`load_transfusion`, lines 31–51) -/

/-- The alias map of lines 35–41. -/
def col_map : List (String × String) :=
  [("Recency (months)", "Recency"),
   ("Frequency (times)", "Frequency"),
   ("Monetary (c.c. blood)", "Monetary"),
   ("Time (months)", "Time"),
   ("whether he/she donated blood in March 2007", "Target")]

/-- Renaming one column through `col_map` (lines 42–44). -/
def renameCol (c : String) : String :=
  match col_map.find? (fun p => p.1 = c) with
  | some p => p.2
  | none => c

/-- `load_transfusion` (lines 31–51): rename known aliases; if no column is
named `Target` afterwards, rename every column carrying the name of the last
column to `Target` (`df.rename(columns=\x7blast_col: "Target"\x7d)`,
lines 46–49).  No error is raised in either case.  (`astype(int)` on the
label column is the identity on the integer cells modelled here.) -/
def load_transfusion (t : Table) : Table :=
  let cols1 := t.cols.map renameCol
  if "Target" ∈ cols1 then
    { cols := cols1, rows := t.rows }
  else
    let lastCol := cols1.getLast?.getD ""
    { cols := cols1.map (fun c => if c = lastCol then "Target" else c)
      rows := t.rows }

/-! ## Leaderboard (Tab 3, lines 249–250) -/

/-- One donor row as used by the leaderboard. -/
structure Donor where
  name : String
  blood_group : String
  total_donations : ℤ
  last_donation_date : ℤ
  contribution_score : ℤ
deriving DecidableEq, Repr

/-- `donors_df.sort_values("contribution_score", ascending=False)`, specified
relationally: the output is a permutation of the input that is ordered by
descending `contribution_score`.  The call uses the pandas default sort kind
(`quicksort`), which the pandas documentation does not guarantee to be
stable, so no condition on the relative order of equal scores is part of the
contract — any permutation so ordered is a possible output. -/
def IsSortValuesDesc (input output : List Donor) : Prop :=
  output.Perm input ∧
    output.Chain' (fun a b => b.contribution_score ≤ a.contribution_score)

/-- `donors_df["rank"] = np.arange(1, len(donors_df) + 1)` (line 250): the
sorted roster paired with ranks `1..n` in order. -/
def withRanks (output : List Donor) : List (ℕ × Donor) :=
  output.enum.map (fun p => (p.1 + 1, p.2))

/-- Stable tie-breaking as the specification states it: donors with equal
`contribution_score` keep their original relative order. -/
def tiesInOriginalOrder (input output : List Donor) : Prop :=
  ∀ a ∈ input, ∀ b ∈ input,
    a.contribution_score = b.contribution_score →
    input.indexOf a < input.indexOf b →
    output.indexOf a < output.indexOf b

/-! ## Evaluation metrics (lines 67–74 and 180) -/

/-- `accuracy_score(y_test, y_pred)`: fraction of positions where prediction
and label agree. -/
def accuracy_score (yTrue yPred : List Bool) : ℚ :=
  ((yTrue.zip yPred).countP (fun p => p.1 == p.2) : ℚ) / (yTrue.length : ℚ)

/-- The contribution of one positive/negative score pair to the ROC AUC:
1 if the positive is ranked higher, 1/2 on a tie, 0 otherwise. -/
def pairScore (p q : ℚ) : ℚ :=
  if q < p then 1 else if q = p then 1 / 2 else 0

/-- `roc_auc_score(y_test, y_proba)` for a binary problem: the probability
that a random positive is scored above a random negative (ties count 1/2).
When only one class is present the metric is undefined and scikit-learn
raises `ValueError`; lines 70–73 catch this and store `np.nan`, modelled by
`none`. -/
def roc_auc_score (yTrue : List Bool) (scores : List ℚ) : Option ℚ :=
  let pairs := yTrue.zip scores
  let posScores := (pairs.filter (fun p => p.1)).map (fun p => p.2)
  let negScores := (pairs.filter (fun p => !p.1)).map (fun p => p.2)
  if posScores.isEmpty || negScores.isEmpty then none
  else
    some ((posScores.map (fun p => (negScores.map (pairScore p)).sum)).sum /
      ((posScores.length : ℚ) * (negScores.length : ℚ)))

/-- Line 180: the ROC AUC KPI renders as a percentage, or as an em dash when
the stored value is `np.nan` (`none`); numeric formatting is abstracted to
exact rendering. -/
def aucDisplay (auc : Option ℚ) : String :=
  match auc with
  | none => "—"
  | some a => toString (100 * a) ++ "%"

/-! ## The training routine (`train_model`, lines 53–74) -/

/-- `train_test_split(..., test_size=0.2, random_state=42, stratify=y)`,
modelled as a deterministic seeded permutation followed by an 80/20 split.
The seeded permutation (and the stratification it performs) is abstracted to
a fixed rotation by a seed-derived amount; the claims below use only that the
partition is a function of the data and the seed alone.  Returns
`(train, test)`. -/
def train_test_split (seed : ℕ) (l : List α) : List α × List α :=
  let sh := l.rotateLeft (prand seed 0 % (l.length + 1))
  let nTest := l.length / 5
  (sh.drop nTest, sh.take nTest)

/-- One bootstrap sample of the training data, with indices drawn from the
seeded stream. -/
def bootstrap (seed : ℕ) (data : List (FeatureVec × Bool)) :
    List (FeatureVec × Bool) :=
  (List.range data.length).filterMap
    (fun j => data.get? (prand seed j % (data.length + 1)))

/-- Growing one tree from a bootstrap sample.  Tree growth is abstracted to a
single class-frequency leaf: the claims below depend only on every leaf
probability being a class fraction and on the fit being a deterministic
function of its sample. -/
def fitTree (sample : List (FeatureVec × Bool)) : DTree :=
  .leaf (sample.countP (fun p => p.2)) (sample.countP (fun p => !p.2))

/-- `RandomForestClassifier(n_estimators=300, max_depth=None,
random_state=42, class_weight="balanced_subsample").fit`: each of the
`nEstimators` trees is grown from a bootstrap sample drawn with the PRNG
seeded by `random_state`, so the whole ensemble is a deterministic function
of the data and the seed. -/
def randomForestFit (data : List (FeatureVec × Bool)) (nEstimators seed : ℕ) :
    List DTree :=
  (List.range nEstimators).map (fun j => fitTree (bootstrap (seed + j) data))

/-- The values `train_model` returns: the fitted model and scaler, the
holdout accuracy, and the holdout ROC AUC (`none` for `np.nan`). -/
structure TrainOutput where
  model : List DTree
  scaler : ScalerStats
  acc : ℚ
  auc : Option ℚ

/-- `train_model(df)` (lines 53–74) on a non-empty record list `r :: rs`:
fit `MinMaxScaler` on the full feature matrix and scale it (lines 57–58),
split 80/20 with `random_state=42` (lines 60–62), fit the forest with
`random_state=42` (lines 63–66), and evaluate holdout accuracy and ROC AUC
(lines 67–74). -/
def train_model (r : FeatureVec × Bool) (rs : List (FeatureVec × Bool)) :
    TrainOutput :=
  let df := r :: rs
  let stats := fitScaler r.1 (rs.map Prod.fst)
  let scaled := df.map (fun p => (scalerTransform stats p.1, p.2))
  let split := train_test_split 42 scaled
  let model := randomForestFit split.1 300 42
  let yTest := split.2.map Prod.snd
  let yPred := split.2.map (fun p => pred (predict_proba model p.1))
  let yProba := split.2.map (fun p => predict_proba model p.1)
  { model := model
    scaler := stats
    acc := accuracy_score yTest yPred
    auc := roc_auc_score yTest yProba }

/-! ## Theorems -/

/-- Helper: the min-max transform of a value lying between the fitted bounds
of a non-degenerate column lands in `[0,1]`. -/
theorem transformValue_mem_unit (s : ColStats) (v : ℚ)
    (h1 : s.dmin ≤ v) (h2 : v ≤ s.dmax) (h3 : s.dmin < s.dmax) :
    0 ≤ transformValue s v ∧ transformValue s v ≤ 1 := by
  unfold transformValue handle_zeros_in_scale
  rw [if_neg (sub_ne_zero_of_ne h3.ne')]
  constructor
  · exact div_nonneg (by linarith) (by linarith)
  · rw [div_le_one (by linarith)]
    linarith

/-- C1 fails as stated: the endpoint accepts the vector `(20, 2, 750, 20)`
(all non-negative integers within the widget bounds), yet with the scaler
fitted on the training matrix `[(0,0,0,0), (10,10,10,10)]` the transformed
recency component is `2`, outside `[0,1]` — `scaler.transform` does not clip
to the training range. -/
theorem normalizer_range_counterexample :
    acceptedInput ⟨20, 2, 750, 20⟩ ∧
      ¬ ((scalerTransform (fitScaler ⟨0, 0, 0, 0⟩ [⟨10, 10, 10, 10⟩])
            ⟨20, 2, 750, 20⟩).recency ≤ 1) := by
  constructor
  · exact ⟨⟨20, by norm_num⟩, ⟨2, by norm_num⟩, ⟨750, by norm_num⟩,
      ⟨20, by norm_num⟩, by norm_num, by norm_num, by norm_num, by norm_num,
      by norm_num, by norm_num, by norm_num, by norm_num⟩
  · norm_num [scalerTransform, fitScaler, fitColumn, transformValue,
      handle_zeros_in_scale, min_def, max_def]

/-- C1 (amended): for every feature vector accepted by the inference
endpoint each of whose components moreover lies within the corresponding
fitted training bounds `[dmin, dmax]`, with every fitted column
non-degenerate (`dmin < dmax`), every component of the transformed vector
lies in `[0,1]`. -/
theorem normalizer_range_within_training_bounds
    (t0 : FeatureVec) (ts : List FeatureVec) (x : FeatureVec)
    (hx : acceptedInput x)
    (hr1 : (fitScaler t0 ts).recency.dmin ≤ x.recency)
    (hr2 : x.recency ≤ (fitScaler t0 ts).recency.dmax)
    (hr3 : (fitScaler t0 ts).recency.dmin < (fitScaler t0 ts).recency.dmax)
    (hf1 : (fitScaler t0 ts).frequency.dmin ≤ x.frequency)
    (hf2 : x.frequency ≤ (fitScaler t0 ts).frequency.dmax)
    (hf3 : (fitScaler t0 ts).frequency.dmin < (fitScaler t0 ts).frequency.dmax)
    (hm1 : (fitScaler t0 ts).monetary.dmin ≤ x.monetary)
    (hm2 : x.monetary ≤ (fitScaler t0 ts).monetary.dmax)
    (hm3 : (fitScaler t0 ts).monetary.dmin < (fitScaler t0 ts).monetary.dmax)
    (ht1 : (fitScaler t0 ts).time.dmin ≤ x.time)
    (ht2 : x.time ≤ (fitScaler t0 ts).time.dmax)
    (ht3 : (fitScaler t0 ts).time.dmin < (fitScaler t0 ts).time.dmax) :
    (0 ≤ (scalerTransform (fitScaler t0 ts) x).recency ∧
        (scalerTransform (fitScaler t0 ts) x).recency ≤ 1) ∧
      (0 ≤ (scalerTransform (fitScaler t0 ts) x).frequency ∧
        (scalerTransform (fitScaler t0 ts) x).frequency ≤ 1) ∧
      (0 ≤ (scalerTransform (fitScaler t0 ts) x).monetary ∧
        (scalerTransform (fitScaler t0 ts) x).monetary ≤ 1) ∧
      (0 ≤ (scalerTransform (fitScaler t0 ts) x).time ∧
        (scalerTransform (fitScaler t0 ts) x).time ≤ 1) :=
  ⟨transformValue_mem_unit _ _ hr1 hr2 hr3,
    transformValue_mem_unit _ _ hf1 hf2 hf3,
    transformValue_mem_unit _ _ hm1 hm2 hm3,
    transformValue_mem_unit _ _ ht1 ht2 ht3⟩

/-- Witness for the amended C1 at the training matrix
`[(0,0,0,0), (10,10,10,10)]` and the in-bounds input `(5,5,5,5)`. -/
theorem normalizer_range_within_training_bounds_witness :
    (0 ≤ (scalerTransform (fitScaler ⟨0, 0, 0, 0⟩ [⟨10, 10, 10, 10⟩])
          ⟨5, 5, 5, 5⟩).recency ∧
        (scalerTransform (fitScaler ⟨0, 0, 0, 0⟩ [⟨10, 10, 10, 10⟩])
          ⟨5, 5, 5, 5⟩).recency ≤ 1) ∧
      (0 ≤ (scalerTransform (fitScaler ⟨0, 0, 0, 0⟩ [⟨10, 10, 10, 10⟩])
          ⟨5, 5, 5, 5⟩).frequency ∧
        (scalerTransform (fitScaler ⟨0, 0, 0, 0⟩ [⟨10, 10, 10, 10⟩])
          ⟨5, 5, 5, 5⟩).frequency ≤ 1) ∧
      (0 ≤ (scalerTransform (fitScaler ⟨0, 0, 0, 0⟩ [⟨10, 10, 10, 10⟩])
          ⟨5, 5, 5, 5⟩).monetary ∧
        (scalerTransform (fitScaler ⟨0, 0, 0, 0⟩ [⟨10, 10, 10, 10⟩])
          ⟨5, 5, 5, 5⟩).monetary ≤ 1) ∧
      (0 ≤ (scalerTransform (fitScaler ⟨0, 0, 0, 0⟩ [⟨10, 10, 10, 10⟩])
          ⟨5, 5, 5, 5⟩).time ∧
        (scalerTransform (fitScaler ⟨0, 0, 0, 0⟩ [⟨10, 10, 10, 10⟩])
          ⟨5, 5, 5, 5⟩).time ≤ 1) :=
  normalizer_range_within_training_bounds ⟨0, 0, 0, 0⟩ [⟨10, 10, 10, 10⟩]
    ⟨5, 5, 5, 5⟩
    ⟨⟨5, by norm_num⟩, ⟨5, by norm_num⟩, ⟨5, by norm_num⟩, ⟨5, by norm_num⟩,
      by norm_num, by norm_num, by norm_num, by norm_num, by norm_num,
      by norm_num, by norm_num, by norm_num⟩
    (by norm_num [fitScaler, fitColumn, min_def])
    (by norm_num [fitScaler, fitColumn, max_def])
    (by norm_num [fitScaler, fitColumn, min_def, max_def])
    (by norm_num [fitScaler, fitColumn, min_def])
    (by norm_num [fitScaler, fitColumn, max_def])
    (by norm_num [fitScaler, fitColumn, min_def, max_def])
    (by norm_num [fitScaler, fitColumn, min_def])
    (by norm_num [fitScaler, fitColumn, max_def])
    (by norm_num [fitScaler, fitColumn, min_def, max_def])
    (by norm_num [fitScaler, fitColumn, min_def])
    (by norm_num [fitScaler, fitColumn, max_def])
    (by norm_num [fitScaler, fitColumn, min_def, max_def])

/-- C2: `compute_eligibility` returns
`next_eligible = last_donation + cooldown_days`,
`eligible = (today ≥ next_eligible)` and
`days_left = max 0 (next_eligible - today)` for every cooldown in `[30,200]`;
in particular with `cooldown_days = 90` a donation 120 days ago is eligible
with 0 days left, and a donation 10 days ago is ineligible with 80 days
left. -/
theorem compute_eligibility_contract (last cooldown today : ℤ)
    (h30 : 30 ≤ cooldown) (h200 : cooldown ≤ 200) :
    compute_eligibility last cooldown today =
      (decide (today ≥ last + cooldown), last + cooldown,
        max 0 (last + cooldown - today)) ∧
      compute_eligibility (today - 120) 90 today = (true, today - 30, 0) ∧
      compute_eligibility (today - 10) 90 today = (false, today + 80, 80) := by
  refine ⟨?_, ?_, ?_⟩
  · by_cases h : today ≥ last + cooldown
    · simp [compute_eligibility, h] <;> omega
    · simp [compute_eligibility, h] <;> omega
  · have h : today ≥ today - 120 + 90 := by omega
    simp [compute_eligibility, h] <;> omega
  · have h : ¬ (today ≥ today - 10 + 90) := by omega
    simp [compute_eligibility, h] <;> omega

/-- Witness for C2 at `today = 1000`, `cooldown = 90`, `last = 880`. -/
theorem compute_eligibility_contract_witness :
    compute_eligibility 880 90 1000 =
      (decide ((1000 : ℤ) ≥ 880 + 90), (880 : ℤ) + 90,
        max 0 (880 + 90 - 1000)) ∧
      compute_eligibility (1000 - 120) 90 1000 = (true, 1000 - 30, 0) ∧
      compute_eligibility (1000 - 10) 90 1000 = (false, 1000 + 80, 80) :=
  compute_eligibility_contract 880 90 1000 (by norm_num) (by norm_num)

/-- C6: the training routine is reproducible — two runs on the same records
give the same accuracy, the same AUC, and the same probability and boolean
prediction on every holdout input.  In the embedding every source of
randomness (the 80/20 split with `random_state=42`, the forest fit with
`random_state=42`) is a function of the data and the fixed seeds alone, so
`train_model` is a pure function and the two runs agree. -/
theorem training_reproducibility (r : FeatureVec × Bool)
    (rs : List (FeatureVec × Bool)) :
    (train_model r rs).acc = (train_model r rs).acc ∧
      (train_model r rs).auc = (train_model r rs).auc ∧
      ∀ x : FeatureVec,
        predict_proba (train_model r rs).model x =
            predict_proba (train_model r rs).model x ∧
          pred (predict_proba (train_model r rs).model x) =
            pred (predict_proba (train_model r rs).model x) :=
  ⟨rfl, rfl, fun _ => ⟨rfl, rfl⟩⟩

/-- C7 fails as stated: at the degenerate fitted column `dmin = dmax = 3`
the divisor `transform` actually uses is `_handle_zeros_in_scale(0) = 1`,
not `0` — no division by zero occurs — and the transform is defined,
mapping the training value `3` to `0` and the value `5` to `2`. -/
theorem degenerate_feature_counterexample :
    handle_zeros_in_scale
        ((ColStats.mk 3 3).dmax - (ColStats.mk 3 3).dmin) = 1 ∧
      handle_zeros_in_scale
        ((ColStats.mk 3 3).dmax - (ColStats.mk 3 3).dmin) ≠ 0 ∧
      transformValue (ColStats.mk 3 3) 3 = 0 ∧
      transformValue (ColStats.mk 3 3) 5 = 2 := by
  norm_num [handle_zeros_in_scale, transformValue]

/-- C7 (amended): when a fitted column has `dmax = dmin`, scikit-learn
replaces the zero range by `1` (`_handle_zeros_in_scale`), so no division by
zero occurs: the transform is defined and maps every value `v` of that
column to `v - dmin`; in particular every training value of the column (all
equal to `dmin`) maps to `0`. -/
theorem degenerate_feature_no_div_by_zero (s : ColStats)
    (h : s.dmax = s.dmin) :
    handle_zeros_in_scale (s.dmax - s.dmin) = 1 ∧
      (∀ v : ℚ, transformValue s v = v - s.dmin) ∧
      transformValue s s.dmin = 0 := by
  have hz : s.dmax - s.dmin = 0 := by rw [h]; ring
  have hone : handle_zeros_in_scale (s.dmax - s.dmin) = 1 := by
    unfold handle_zeros_in_scale
    rw [if_pos hz]
  have hval : ∀ v : ℚ, transformValue s v = v - s.dmin := by
    intro v
    unfold transformValue
    rw [hone, div_one]
  exact ⟨hone, hval, by rw [hval, sub_self]⟩

/-- Witness for the amended C7 at the degenerate column `dmin = dmax = 3`. -/
theorem degenerate_feature_no_div_by_zero_witness :
    handle_zeros_in_scale ((ColStats.mk 3 3).dmax - (ColStats.mk 3 3).dmin)
        = 1 ∧
      (∀ v : ℚ, transformValue (ColStats.mk 3 3) v =
        v - (ColStats.mk 3 3).dmin) ∧
      transformValue (ColStats.mk 3 3) (ColStats.mk 3 3).dmin = 0 :=
  degenerate_feature_no_div_by_zero ⟨3, 3⟩ rfl

instance (input output : List Donor) :
    Decidable (tiesInOriginalOrder input output) := by
  unfold tiesInOriginalOrder; infer_instance

/-- Helper: every tree probability is a class fraction in `[0,1]`. -/
theorem probaPos_mem_unit (t : DTree) (x : FeatureVec) :
    0 ≤ t.probaPos x ∧ t.probaPos x ≤ 1 := by
  induction t with
  | leaf pos neg =>
    constructor
    · exact div_nonneg (by positivity) (by positivity)
    · show (pos : ℚ) / ((pos : ℚ) + (neg : ℚ)) ≤ 1
      by_cases h : ((pos : ℚ) + (neg : ℚ)) = 0
      · simp [h]
      · rw [div_le_one (lt_of_le_of_ne (by positivity) (Ne.symm h))]
        have : (0 : ℚ) ≤ (neg : ℚ) := by positivity
        linarith
  | node f th l r ihl ihr =>
    simp only [DTree.probaPos]
    by_cases h : x.get f ≤ th
    · simpa [h] using ihl
    · simpa [h] using ihr

/-- C3: for every non-empty forest and every input, `predict_proba` lies in
`[0,1]`, and the boolean prediction of line 215 is `true` exactly when the
probability is at least `1/2`. -/
theorem predict_threshold_consistency (trees : List DTree) (x : FeatureVec)
    (hne : trees ≠ []) :
    0 ≤ predict_proba trees x ∧ predict_proba trees x ≤ 1 ∧
      (pred (predict_proba trees x) = true ↔
        1 / 2 ≤ predict_proba trees x) := by
  have hlen : 0 < (trees.length : ℚ) := by
    exact_mod_cast List.length_pos.mpr hne
  have hnn : 0 ≤ (trees.map (fun t => t.probaPos x)).sum := by
    refine List.sum_nonneg ?_
    intro q hq
    obtain ⟨t, _, rfl⟩ := List.mem_map.mp hq
    exact (probaPos_mem_unit t x).1
  have hub : (trees.map (fun t => t.probaPos x)).sum ≤ (trees.length : ℚ) := by
    have h1 : (trees.map (fun t => t.probaPos x)).sum ≤
        (trees.map (fun t => t.probaPos x)).length • (1 : ℚ) := by
      refine List.sum_le_card_nsmul _ _ ?_
      intro q hq
      obtain ⟨t, _, rfl⟩ := List.mem_map.mp hq
      exact (probaPos_mem_unit t x).2
    simpa [List.length_map, nsmul_eq_mul] using h1
  refine ⟨div_nonneg hnn hlen.le, ?_, ?_⟩
  · rw [predict_proba, div_le_one hlen]
    exact hub
  · simp [pred, ge_iff_le]

/-- Witness for C3 at the one-tree forest `[leaf 1 1]` and input
`(0,0,0,0)`. -/
theorem predict_threshold_consistency_witness :
    0 ≤ predict_proba [DTree.leaf 1 1] ⟨0, 0, 0, 0⟩ ∧
      predict_proba [DTree.leaf 1 1] ⟨0, 0, 0, 0⟩ ≤ 1 ∧
      (pred (predict_proba [DTree.leaf 1 1] ⟨0, 0, 0, 0⟩) = true ↔
        1 / 2 ≤ predict_proba [DTree.leaf 1 1] ⟨0, 0, 0, 0⟩) :=
  predict_threshold_consistency [DTree.leaf 1 1] ⟨0, 0, 0, 0⟩
    (List.cons_ne_nil _ _)

/-- C4 fails as stated: with two equal-score donors `A` (first) and `B`
(second), the output `[B, A]` is a permutation of the roster sorted by
descending `contribution_score` — hence a possible result of the unstable
default `sort_values` — yet `A` and `B` do not keep their original relative
order. -/
theorem leaderboard_stability_counterexample :
    IsSortValuesDesc [⟨"A", "O+", 1, 0, 5⟩, ⟨"B", "O+", 2, 0, 5⟩]
        [⟨"B", "O+", 2, 0, 5⟩, ⟨"A", "O+", 1, 0, 5⟩] ∧
      ¬ tiesInOriginalOrder [⟨"A", "O+", 1, 0, 5⟩, ⟨"B", "O+", 2, 0, 5⟩]
        [⟨"B", "O+", 2, 0, 5⟩, ⟨"A", "O+", 1, 0, 5⟩] := by
  refine ⟨⟨by decide, ?_⟩, by decide⟩
  exact List.chain'_cons.mpr ⟨by decide, List.chain'_singleton _⟩

/-- C4 (amended): for every roster, any descending sort of it assigns rank 1
to a donor whose `contribution_score` is maximal in the roster; the relative
order of equal scores is not guaranteed (the default pandas sort kind is not
stable). -/
theorem leaderboard_rank1_max (input output : List Donor)
    (hsort : IsSortValuesDesc input output) (hne : input ≠ []) :
    ∃ top : Donor, (withRanks output).head? = some (1, top) ∧
      ∀ d ∈ input, d.contribution_score ≤ top.contribution_score := by
  obtain ⟨hperm, hchain⟩ := hsort
  have hone : output ≠ [] := by
    intro h
    subst h
    exact hne hperm.nil_eq.symm
  obtain ⟨top, rest, rfl⟩ := List.exists_cons_of_ne_nil hone
  refine ⟨top, ?_, ?_⟩
  · simp [withRanks]
  · haveI : IsTrans Donor
        (fun a b => b.contribution_score ≤ a.contribution_score) :=
      ⟨fun _ _ _ hab hbc => le_trans hbc hab⟩
    have hpw := List.chain'_iff_pairwise.mp hchain
    intro d hd
    rcases List.mem_cons.mp (hperm.mem_iff.mpr hd) with h | h
    · subst h
      exact le_refl _
    · exact (List.pairwise_cons.mp hpw).1 d h

/-- Witness for the amended C4 at a two-donor roster with distinct scores. -/
theorem leaderboard_rank1_max_witness :
    ∃ top : Donor,
      (withRanks [⟨"B", "O+", 2, 0, 9⟩, ⟨"A", "O+", 1, 0, 7⟩]).head? =
          some (1, top) ∧
        ∀ d ∈ [(⟨"A", "O+", 1, 0, 7⟩ : Donor), ⟨"B", "O+", 2, 0, 9⟩],
          d.contribution_score ≤ top.contribution_score :=
  leaderboard_rank1_max [⟨"A", "O+", 1, 0, 7⟩, ⟨"B", "O+", 2, 0, 9⟩]
    [⟨"B", "O+", 2, 0, 9⟩, ⟨"A", "O+", 1, 0, 7⟩]
    ⟨by decide, List.chain'_cons.mpr ⟨by decide, List.chain'_singleton _⟩⟩
    (by simp)

/-- Helper: on a table having `last_donation_date` but missing some other
required column, `parse_donors_csv` returns the descriptive missing-column
error of line 121. -/
theorem parse_donors_csv_error_of_missing (t : Table)
    (hld : "last_donation_date" ∈ t.cols)
    (hfil : requiredCols.filter (fun c => c ∉ t.cols) ≠ []) :
    parse_donors_csv t =
      .error (missingColMsg (requiredCols.filter (fun c => c ∉ t.cols))) := by
  simp only [parse_donors_csv]
  rw [if_neg (not_not_intro hld), if_pos hfil]

/-- Helper: on a table missing `last_donation_date`, line 116 raises a
`KeyError` before the required-columns check. -/
theorem parse_donors_csv_keyerror (t : Table)
    (hld : "last_donation_date" ∉ t.cols) :
    parse_donors_csv t = .error "KeyError: \x27last_donation_date\x27" := by
  simp only [parse_donors_csv]
  rw [if_pos hld]

/-- C5: a roster table missing any required column makes `parse_donors_csv`
raise an error, upon which the caller falls back to the synthetic default
roster `gen_sample_donors()` (`n = 200`, `seed = 42`), which has exactly 200
rows; when `blood_group` is the one missing column (the other required
columns being present) the error carries the descriptive message of
line 121 naming it. -/
theorem roster_missing_column_fallback (today : ℤ) (t : Table)
    (hmiss : ∃ c ∈ requiredCols, c ∉ t.cols) :
    (∃ msg : String, parse_donors_csv t = .error msg) ∧
      donorsTableOfUpload today (some t) = gen_sample_donors today 200 42 ∧
      (gen_sample_donors today 200 42).rows.length = 200 ∧
      ("blood_group" ∉ t.cols → "name" ∈ t.cols → "gender" ∈ t.cols →
        "last_donation_date" ∈ t.cols → "total_donations" ∈ t.cols →
        parse_donors_csv t = .error (missingColMsg ["blood_group"])) := by
  obtain ⟨c, hc, hcn⟩ := hmiss
  have herr : ∃ msg : String, parse_donors_csv t = .error msg := by
    by_cases hld : "last_donation_date" ∈ t.cols
    · have hfil : requiredCols.filter (fun c => c ∉ t.cols) ≠ [] :=
        List.ne_nil_of_mem (List.mem_filter.mpr ⟨hc, by simpa using hcn⟩)
      exact ⟨_, parse_donors_csv_error_of_missing t hld hfil⟩
    · exact ⟨_, parse_donors_csv_keyerror t hld⟩
  refine ⟨herr, ?_, ?_, ?_⟩
  · obtain ⟨msg, hmsg⟩ := herr
    simp [donorsTableOfUpload, hmsg]
  · simp [gen_sample_donors]
  · intro hbg hname hgender hld htot
    have hfil : requiredCols.filter (fun c => c ∉ t.cols) = ["blood_group"] := by
      simp [requiredCols, List.filter, hname, hgender, hbg, hld, htot]
    have h := parse_donors_csv_error_of_missing t hld (by rw [hfil]; simp)
    rw [h, hfil]

/-- Witness for C5 at a table missing exactly `blood_group`. -/
theorem roster_missing_column_fallback_witness :
    (∃ msg : String,
        parse_donors_csv
            ⟨["name", "gender", "last_donation_date", "total_donations"],
              []⟩ = .error msg) ∧
      donorsTableOfUpload 0
          (some ⟨["name", "gender", "last_donation_date", "total_donations"],
            []⟩) = gen_sample_donors 0 200 42 ∧
      (gen_sample_donors 0 200 42).rows.length = 200 ∧
      ("blood_group" ∉
          (Table.mk ["name", "gender", "last_donation_date",
            "total_donations"] []).cols →
        "name" ∈ (Table.mk ["name", "gender", "last_donation_date",
          "total_donations"] []).cols →
        "gender" ∈ (Table.mk ["name", "gender", "last_donation_date",
          "total_donations"] []).cols →
        "last_donation_date" ∈ (Table.mk ["name", "gender",
          "last_donation_date", "total_donations"] []).cols →
        "total_donations" ∈ (Table.mk ["name", "gender",
          "last_donation_date", "total_donations"] []).cols →
        parse_donors_csv ⟨["name", "gender", "last_donation_date",
          "total_donations"], []⟩ = .error (missingColMsg ["blood_group"])) :=
  roster_missing_column_fallback 0
    ⟨["name", "gender", "last_donation_date", "total_donations"], []⟩
    ⟨"blood_group", by decide, by decide⟩

/-- C8: when the holdout labels contain only one class, the ROC AUC is
undefined — `roc_auc_score` yields `none` (scikit-learn raises, caught into
`np.nan`) — and the KPI renders the em dash, while the accuracy is still a
number in `[0,1]`. -/
theorem single_class_auc_unavailable (yTrue : List Bool) (scores : List ℚ)
    (yPred : List Bool)
    (h : (∀ y ∈ yTrue, y = true) ∨ (∀ y ∈ yTrue, y = false)) :
    roc_auc_score yTrue scores = none ∧
      aucDisplay (roc_auc_score yTrue scores) = "—" ∧
      0 ≤ accuracy_score yTrue yPred ∧ accuracy_score yTrue yPred ≤ 1 := by
  have hnone : roc_auc_score yTrue scores = none := by
    unfold roc_auc_score
    rcases h with hall | hall
    · have hneg : (yTrue.zip scores).filter (fun p => !p.1) = [] := by
        refine List.filter_eq_nil.mpr ?_
        intro p hp
        obtain ⟨a, b⟩ := p
        simp [hall a (List.mem_zip hp).1]
      simp [hneg]
    · have hpos : (yTrue.zip scores).filter (fun p => p.1) = [] := by
        refine List.filter_eq_nil.mpr ?_
        intro p hp
        obtain ⟨a, b⟩ := p
        simp [hall a (List.mem_zip hp).1]
      simp [hpos]
  have hacc0 : 0 ≤ accuracy_score yTrue yPred := by
    unfold accuracy_score
    positivity
  have hacc1 : accuracy_score yTrue yPred ≤ 1 := by
    unfold accuracy_score
    rcases Nat.eq_zero_or_pos yTrue.length with h0 | hpos
    · simp [h0]
    · rw [div_le_one (by exact_mod_cast hpos)]
      have hle : (yTrue.zip yPred).countP (fun p => p.1 == p.2) ≤
          yTrue.length :=
        le_trans (List.countP_le_length _)
          (by rw [List.length_zip]; exact Nat.min_le_left _ _)
      exact_mod_cast hle
  exact ⟨hnone, by rw [hnone]; rfl, hacc0, hacc1⟩

/-- Witness for C8 at the all-positive holdout `[true, true]`. -/
theorem single_class_auc_unavailable_witness :
    roc_auc_score [true, true] [1 / 2, 1 / 3] = none ∧
      aucDisplay (roc_auc_score [true, true] [1 / 2, 1 / 3]) = "—" ∧
      0 ≤ accuracy_score [true, true] [true, false] ∧
      accuracy_score [true, true] [true, false] ≤ 1 :=
  single_class_auc_unavailable [true, true] [1 / 2, 1 / 3] [true, false]
    (Or.inl (by decide))

/-- C9: when no column is named `Target` after alias renaming,
`load_transfusion` silently makes the last column the label — the returned
table has `Target` as its last column name and its rows unchanged, and no
error is raised (the function is total on such tables). -/
theorem missing_target_last_column_label (t : Table)
    (hne : t.cols ≠ [])
    (hno : "Target" ∉ t.cols.map renameCol) :
    (load_transfusion t).cols.getLast? = some "Target" ∧
      (load_transfusion t).rows = t.rows := by
  obtain ⟨cols, rows⟩ := t
  simp only at hne hno
  obtain rfl | ⟨l, a, rfl⟩ := List.eq_nil_or_concat cols
  · exact absurd rfl hne
  · constructor
    · simp only [load_transfusion]
      rw [if_neg hno]
      simp
    · simp only [load_transfusion]
      rw [if_neg hno]

/-- Witness for C9 at the two-column table `["a", "b"]`. -/
theorem missing_target_last_column_label_witness :
    (load_transfusion ⟨["a", "b"], []⟩).cols.getLast? = some "Target" ∧
      (load_transfusion ⟨["a", "b"], []⟩).rows = ([] : List (List Cell)) :=
  missing_target_last_column_label ⟨["a", "b"], []⟩ (by decide) (by decide)

/-- C10: a roster table that has all required columns but no
`contribution_score` column parses successfully into a table extended with a
`contribution_score` column whose value on every row is
`total_donations * 10`. -/
theorem contribution_score_default_fill (t : Table)
    (hreq : ∀ c ∈ requiredCols, c ∈ t.cols)
    (hno : "contribution_score" ∉ t.cols)
    (hwf : ∀ r ∈ t.rows, r.length = t.cols.length) :
    parse_donors_csv t = .ok
        { cols := t.cols ++ ["contribution_score"]
          rows := t.rows.map (fun r =>
            r ++ [cellTimes10 (cellAt t.cols r "total_donations")]) } ∧
      ∀ r ∈ t.rows, ∀ v : ℤ,
        cellAt t.cols r "total_donations" = .i v →
          cellAt (t.cols ++ ["contribution_score"])
              (r ++ [cellTimes10 (cellAt t.cols r "total_donations")])
              "contribution_score" = .i (v * 10) := by
  constructor
  · have hld : "last_donation_date" ∈ t.cols :=
      hreq _ (by simp [requiredCols])
    have hfil : requiredCols.filter (fun c => c ∉ t.cols) = [] := by
      refine List.filter_eq_nil.mpr ?_
      intro c hc
      simpa using hreq c hc
    simp only [parse_donors_csv]
    rw [if_neg (not_not_intro hld), hfil, if_neg (by simp), if_neg hno]
  · intro r hr v hv
    unfold cellAt
    rw [List.indexOf_append_of_not_mem hno]
    have h0 : List.indexOf "contribution_score" ["contribution_score"] = 0 :=
      List.indexOf_cons_self _ _
    rw [h0, Nat.add_zero, ← hwf r hr]
    have happ : ∀ x : Cell, (r ++ [x]).getD r.length (Cell.i 0) = x := by
      intro x
      simp [List.getD]
    rw [happ]
    unfold cellAt at hv
    rw [hv]
    rfl

/-- Witness for C10 at a one-row table with `total_donations = 3`. -/
theorem contribution_score_default_fill_witness :
    parse_donors_csv
        ⟨["name", "gender", "blood_group", "last_donation_date",
            "total_donations"],
          [[.s "n", .s "g", .s "O+", .i 0, .i 3]]⟩ = .ok
        { cols := ["name", "gender", "blood_group", "last_donation_date",
            "total_donations"] ++ ["contribution_score"]
          rows := [[Cell.s "n", .s "g", .s "O+", .i 0, .i 3]].map (fun r =>
            r ++ [cellTimes10 (cellAt ["name", "gender", "blood_group",
              "last_donation_date", "total_donations"] r
              "total_donations")]) } ∧
      ∀ r ∈ [[Cell.s "n", .s "g", .s "O+", .i 0, .i 3]], ∀ v : ℤ,
        cellAt ["name", "gender", "blood_group", "last_donation_date",
            "total_donations"] r "total_donations" = .i v →
          cellAt (["name", "gender", "blood_group", "last_donation_date",
              "total_donations"] ++ ["contribution_score"])
              (r ++ [cellTimes10 (cellAt ["name", "gender", "blood_group",
                "last_donation_date", "total_donations"] r
                "total_donations")])
              "contribution_score" = .i (v * 10) :=
  contribution_score_default_fill
    ⟨["name", "gender", "blood_group", "last_donation_date",
        "total_donations"],
      [[.s "n", .s "g", .s "O+", .i 0, .i 3]]⟩
    (by decide) (by decide) (by decide)

end ThalaMitra
